import Mathlib

/-!
Shallow embedding of `python/setup.py` of the mujoco_mpc repository: the
setuptools commands that generate gRPC bindings, stage task assets and the
compiled `agent_service` binary, and drive the CMake configure/build of the
native service.

Paths are modelled as lists of components, file contents as strings, the
filesystem as an association list of files plus a list of existing
directories.  External subprocesses are modelled by their exit codes; the
spec's error taxonomy (`ConfigurationError`, `BuildFailureError`,
`GenerationError`, `MissingArtifactError`) names the exceptions the code
raises at the corresponding places (`subprocess.check_call`, `self.spawn`,
`raise ValueError`).
-/

/-! ## Strings: Python's substring test `needle in haystack` -/

/-- Does `needle` occur as a contiguous sublist of `haystack`?
Mirrors Python's `in` operator on strings (character lists). -/
def containsSub (needle : List Char) : List Char → Bool
  | [] => needle.isEmpty
  | c :: rest => needle.isPrefixOf (c :: rest) || containsSub needle rest

/-- Python `needle in haystack` for strings. -/
def strContains (haystack needle : String) : Bool :=
  containsSub needle.data haystack.data

/-- Index of the first occurrence of `needle` in `haystack`, if any.
Used only to express the spec's "order in which the tokens appear". -/
def indexOfSub (needle : List Char) : List Char → Option Nat
  | [] => if needle.isEmpty then some 0 else none
  | c :: rest =>
      if needle.isPrefixOf (c :: rest) then some 0
      else (indexOfSub needle rest).map (· + 1)

/-! ## `BuildCMakeExtension._configure_and_build_agent_service`:
the CMake configure argument list (setup.py lines 198-230) -/

/-- The part of the process environment the configure step consults:
`platform.system()` and the optional `ARCHFLAGS` variable
(`none` models absence from `os.environ`). -/
structure Env where
  system : String
  archflags : Option String
deriving DecidableEq

/-- setup.py lines 204-208: the fixed configure options
(`build_cfg = "Debug"`). -/
def baseConfigureArgs : List String :=
  ["-DCMAKE_EXPORT_COMPILE_COMMANDS:BOOL=TRUE",
   "-DCMAKE_BUILD_TYPE:STRING=Debug",
   "-DBUILD_TESTING:BOOL=OFF"]

/-- setup.py lines 211-215: `osx_archs` accumulated by two independent
substring tests on `ARCHFLAGS`, always in the order x86_64 then arm64. -/
def osx_archs (archflags : String) : List String :=
  (if strContains archflags "-arch x86_64" then ["x86_64"] else []) ++
  (if strContains archflags "-arch arm64" then ["arm64"] else [])

/-- setup.py lines 204-217: `cmake_configure_args` after the
platform-conditional `-DCMAKE_OSX_ARCHITECTURES=...` append. -/
def cmake_configure_args (env : Env) : List String :=
  baseConfigureArgs ++
    (if env.system = "Darwin" then
      match env.archflags with
      | some af =>
          ["-DCMAKE_OSX_ARCHITECTURES=" ++ String.intercalate ";" (osx_archs af)]
      | none => []
    else [])

/-- setup.py lines 225-230: the full argument list of the configure call,
including the source and build directory flags. -/
def cmakeConfigureCommand (root buildDir : String) (env : Env) : List String :=
  ["cmake"] ++ cmake_configure_args env ++ ["-S" ++ root, "-B" ++ buildDir]

/-- Modelled from the spec's words for claim C1 only (not from the code):
the architectures present in `ARCHFLAGS`, listed in the order in which the
two recognized tokens first appear in the environment value. -/
def specOrderPreservingArchs (archflags : String) : List String :=
  match indexOfSub "-arch x86_64".data archflags.data,
        indexOfSub "-arch arm64".data archflags.data with
  | some i, some j => if i ≤ j then ["x86_64", "arm64"] else ["arm64", "x86_64"]
  | some _, none => ["x86_64"]
  | none, some _ => ["arm64"]
  | none, none => []

/-! ## Filesystem model

A path is a list of components (`pathlib.Path` parts); the filesystem is an
association list of files (newest entry first) plus the list of directories
that exist. -/

/-- A filesystem path, as its list of components. -/
abbrev FsPath := List String

/-- Filesystem state: files (path to content) and existing directories. -/
structure FS where
  files : List (FsPath × String)
  dirs : List FsPath
deriving DecidableEq

/-- First entry for key `p` in an association list of files. -/
def lookupFile : List (FsPath × String) → FsPath → Option String
  | [], _ => none
  | e :: rest, p => if e.1 = p then some e.2 else lookupFile rest p

/-- Drop every entry for key `p`. -/
def eraseKey (p : FsPath) : List (FsPath × String) → List (FsPath × String)
  | [] => []
  | e :: rest => if e.1 = p then eraseKey p rest else e :: eraseKey p rest

/-- Content of the file at `p`, if it exists. -/
def FS.read (fs : FS) (p : FsPath) : Option String :=
  lookupFile fs.files p

/-- The `shutil.copy` target effect: (over)write the file at `p` with content
`c`; all other files and the directories are untouched. -/
def FS.write (fs : FS) (p : FsPath) (c : String) : FS :=
  ⟨(p, c) :: eraseKey p fs.files, fs.dirs⟩

/-- Python `mkdir(exist_ok=True)` for a single directory. -/
def insDir (d : FsPath) (ds : List FsPath) : List FsPath :=
  if d ∈ ds then ds else d :: ds

/-- Insert each of `new` (in order), skipping those already present. -/
def insertDirs (ds : List FsPath) (new : List FsPath) : List FsPath :=
  new.foldl (fun acc d => insDir d acc) ds

/-- All nonempty prefixes of a path: the chain of directories that
`mkdir(parents=True, exist_ok=True)` ensures exist. -/
def prefixesOf (p : FsPath) : List FsPath :=
  (List.range p.length).map (fun n => p.take (n + 1))

/-- Python `path.mkdir(parents=True, exist_ok=True)`: create `d` and all its
ancestors, each only if absent. Files are untouched. -/
def FS.mkdirParents (fs : FS) (d : FsPath) : FS :=
  ⟨fs.files, insertDirs fs.dirs (prefixesOf d)⟩

/-- One staging action, exactly the loop body of
`CopyTaskAssetsCommand.run` (setup.py lines 160-162):
`destination_path.parent.mkdir(exist_ok=True, parents=True)` followed by
`shutil.copy(source_path, destination_path)`. -/
def doWrite (fs : FS) (w : FsPath × String) : FS :=
  (fs.mkdirParents w.1.dropLast).write w.1 w.2

/-- Perform a list of staging actions in order. -/
def stage (ws : List (FsPath × String)) (fs : FS) : FS :=
  ws.foldl doWrite fs

/-- Spawned `touch path` (setup.py line 84): create an empty file if absent; an
existing file's content is left unchanged. -/
def touchFile (fs : FS) (p : FsPath) : FS :=
  match fs.read p with
  | some _ => fs
  | none => fs.write p ""

/-! ## Error taxonomy

The spec's names for the exceptions the code raises:
`ConfigurationError` / `BuildFailureError` for `subprocess.check_call`
failures of the CMake configure and build calls (setup.py lines 225, 233,
`subprocess.CalledProcessError` in Python), `GenerationError` for a failed
protoc spawn (line 80, `DistutilsExecError`), `SpawnError` for the failed
`touch` spawn (line 83), and `MissingArtifactError` for the `ValueError`
raised at setup.py line 107. -/

inductive BuildError where
  | ConfigurationError
  | BuildFailureError
  | GenerationError
  | SpawnError
  | MissingArtifactError (msg : String)
deriving DecidableEq

/-! ## `CopyTaskAssetsCommand.run` (setup.py lines 143-162) -/

/-- The destination directory `Path(build_lib_path, "mujoco_mpc", "mjpc",
"tasks")` of setup.py line 151. -/
def tasksDestDir (build_lib : FsPath) : FsPath :=
  build_lib ++ ["mujoco_mpc", "mjpc", "tasks"]

/-- setup.py lines 143-162: for each source file found by
`mjpc_tasks_path.rglob("*.xml")` - given here as its path relative to the
tasks root paired with its content - create the destination's parent
directories, then copy. The loop body contains no raise, so the function
cannot fail. -/
def CopyTaskAssetsCommand.run (build_lib : FsPath)
    (sources : List (FsPath × String)) (fs : FS) : FS :=
  stage (sources.map (fun rc => (tasksDestDir build_lib ++ rc.1, rc.2))) fs

/-! ## `CopyAgentServiceBinaryCommand.run` (setup.py lines 104-121) -/

/-- The message of the `ValueError` of setup.py lines 107-110, with the
f-string placeholder filled with the source path of line 105. -/
def missingBinaryMsg : String :=
  "Cannot find `agent_service` binary from ../build/bin/agent_service. Please build the `agent_service` C++ gRPC service."

/-- The destination `Path(build_lib_path, "mujoco_mpc", "mjpc",
"agent_service")` of setup.py lines 113-115. -/
def agentServiceDest (build_lib : FsPath) : FsPath :=
  build_lib ++ ["mujoco_mpc", "mjpc", "agent_service"]

/-- setup.py lines 104-121: the existence check on
`../build/bin/agent_service` runs first (`binary` is the contents of that
file, `none` when it does not exist); only when it succeeds are the
destination's parent directories created and the file copied. -/
def CopyAgentServiceBinaryCommand.run (binary : Option String)
    (build_lib : FsPath) (fs : FS) : FS × Option BuildError :=
  match binary with
  | none => (fs, some (.MissingArtifactError missingBinaryMsg))
  | some content => (stage [(agentServiceDest build_lib, content)] fs, none)

/-! ## `GenerateProtoGrpcCommand.run` (setup.py lines 46-85) -/

/-- Render a component path the way Python's `Path.__str__` would
(for the strings interpolated into the protoc flags). -/
def pathToString (p : FsPath) : String :=
  String.intercalate "/" p

/-- The `Path("..", "grpc", "agent.proto")` of setup.py line 58. -/
def agentProtoSourcePath : FsPath :=
  ["..", "grpc", "agent.proto"]

/-- The `Path(build_lib_path, "mujoco_mpc", "proto", "agent.proto")` of
setup.py lines 61-65. -/
def protoDestPath (build_lib : FsPath) : FsPath :=
  build_lib ++ ["mujoco_mpc", "proto", "agent.proto"]

/-- The `agent_proto_destination_path.parent / "__init__.py"` of setup.py
line 84. -/
def protoMarkerPath (build_lib : FsPath) : FsPath :=
  (protoDestPath build_lib).dropLast ++ ["__init__.py"]

/-- The `protoc_command_parts` list of setup.py lines 70-75. -/
def protoc_command_parts (build_lib : FsPath) : List String :=
  ["-I" ++ pathToString build_lib,
   "--python_out=" ++ pathToString build_lib,
   "--grpc_python_out=" ++ pathToString build_lib,
   pathToString (protoDestPath build_lib)]

/-- One observable action of `GenerateProtoGrpcCommand.run`. -/
inductive FileOp where
  | mkdirParents (dir : FsPath)
  | copyFile (src dst : FsPath)
  | spawn (args : List String)
deriving DecidableEq

/-- setup.py lines 46-85, as the sequence of actions the method performs:
make the destination's parent directories, copy `agent.proto` into the
staging tree, spawn protoc on the relocated copy, spawn `touch` on the
package marker. -/
def GenerateProtoGrpcCommand.ops (build_lib : FsPath) : List FileOp :=
  [.mkdirParents (protoDestPath build_lib).dropLast,
   .copyFile agentProtoSourcePath (protoDestPath build_lib),
   .spawn (["python", "-m", "grpc_tools.protoc"] ++ protoc_command_parts build_lib),
   .spawn ["touch", pathToString (protoMarkerPath build_lib)]]

/-- The filesystem effect of `GenerateProtoGrpcCommand.run` (`protoContent`
is the content of `../grpc/agent.proto`; the files protoc itself generates
are side effects of the external tool, outside this model): copy the proto
into the staging tree, then `touch` the package marker. -/
def GenerateProtoGrpcCommand.stageFS (build_lib : FsPath)
    (protoContent : String) (fs : FS) : FS :=
  touchFile (stage [(protoDestPath build_lib, protoContent)] fs)
    (protoMarkerPath build_lib)

/-! ## Command ordering (`BuildPyCommand.run`, setup.py lines 174-177) -/

/-- The three steps `BuildPyCommand.run` performs. -/
inductive PyStep where
  | generate_proto_grpc
  | copy_task_assets
  | default_build_py
deriving DecidableEq

/-- A step starting or finishing. -/
inductive Event where
  | started (s : PyStep)
  | finished (s : PyStep)
deriving DecidableEq

/-- Calls `self.run_command(...)` / `super().run()` of a synchronous setuptools
command: the step starts and runs to completion before control returns. -/
def runCommandEvents (s : PyStep) : List Event :=
  [.started s, .finished s]

/-- setup.py lines 174-177: `BuildPyCommand.run` invokes
`generate_proto_grpc`, then `copy_task_assets`, then the default
`build_py.run`, each synchronously. -/
def BuildPyCommand.runTrace : List Event :=
  runCommandEvents .generate_proto_grpc ++
  runCommandEvents .copy_task_assets ++
  runCommandEvents .default_build_py

/-! ## Subprocess exit codes (`BuildCMakeExtension`, setup.py
lines 191-242, and the spawns of `GenerateProtoGrpcCommand.run`) -/

/-- Exit statuses of the two CMake subprocesses. -/
structure CMakeExits where
  configure : Nat
  build : Nat
deriving DecidableEq

/-- Exit statuses of the two spawned subprocesses of
`GenerateProtoGrpcCommand.run`. -/
structure SpawnExits where
  protoc : Nat
  touch : Nat
deriving DecidableEq

/-- Python `subprocess.check_call` / `Command.spawn`: no error on exit status
zero, otherwise the error named for that call site. -/
def checkCall (exitCode : Nat) (e : BuildError) : Option BuildError :=
  if exitCode = 0 then none else some e

/-- The external steps of the extension-build path and of binding
generation. -/
inductive ExtStep where
  | cmakeConfigure
  | cmakeBuild
  | copyBinary
  | protocGen
  | touchMarker
deriving DecidableEq

/-- setup.py lines 198-242 (`_configure_and_build_agent_service`): the
configure call runs first; only if it exits zero does the build call run.
Result: the subprocess steps that completed successfully, and the error
(if any) that aborted the sequence. -/
def BuildCMakeExtension.configure_and_build_agent_service (ex : CMakeExits) :
    List ExtStep × Option BuildError :=
  match checkCall ex.configure .ConfigurationError with
  | some e => ([], some e)
  | none =>
    match checkCall ex.build .BuildFailureError with
    | some e => ([.cmakeConfigure], some e)
    | none => ([.cmakeConfigure, .cmakeBuild], none)

/-- setup.py lines 194-196 (`BuildCMakeExtension.run`): configure and
build, then (only on success) run `copy_agent_service_binary`. Any error
from a sub-step is returned unmodified; nothing is caught or retried. -/
def BuildCMakeExtension.run (ex : CMakeExits) (binary : Option String)
    (build_lib : FsPath) (fs : FS) : List ExtStep × FS × Option BuildError :=
  match BuildCMakeExtension.configure_and_build_agent_service ex with
  | (t, some e) => (t, fs, some e)
  | (t, none) =>
    match CopyAgentServiceBinaryCommand.run binary build_lib fs with
    | (fs2, some e) => (t, fs2, some e)
    | (fs2, none) => (t ++ [.copyBinary], fs2, none)

/-- setup.py lines 80-85: the protoc spawn runs first; only if it exits
zero does the `touch` spawn run. Result: the spawns that completed
successfully, and the error (if any) that aborted the sequence. -/
def GenerateProtoGrpcCommand.spawns (ex : SpawnExits) :
    List ExtStep × Option BuildError :=
  match checkCall ex.protoc .GenerationError with
  | some e => ([], some e)
  | none =>
    match checkCall ex.touch .SpawnError with
    | some e => ([.protocGen], some e)
    | none => ([.protocGen, .touchMarker], none)

/-! ## The staging pipeline (for idempotence) -/

/-- The in-process staging effect of one full pipeline run
(`build_py` then `build_ext` with the binary present): proto copy and
marker touch (`GenerateProtoGrpcCommand`), task assets
(`CopyTaskAssetsCommand`), then the binary (`CopyAgentServiceBinaryCommand`
invoked by `BuildCMakeExtension.run`). -/
def pipelineStage (build_lib : FsPath) (protoContent : String)
    (sources : List (FsPath × String)) (binContent : String) (fs : FS) : FS :=
  (CopyAgentServiceBinaryCommand.run (some binContent) build_lib
    (CopyTaskAssetsCommand.run build_lib sources
      (GenerateProtoGrpcCommand.stageFS build_lib protoContent fs))).1

/-- The last write to `q` in a write list, if any: a later write shadows
an earlier one to the same path. -/
def lastWrite : List (FsPath × String) → FsPath → Option String
  | [], _ => none
  | w :: rest, q =>
      match lastWrite rest q with
      | some c => some c
      | none => if w.1 = q then some w.2 else none

/-- Two filesystem states are the same tree: same files with the same
contents, and the same set of directories. -/
def FS.equiv (fs₁ fs₂ : FS) : Prop :=
  (∀ p, fs₁.read p = fs₂.read p) ∧ (∀ d : FsPath, d ∈ fs₁.dirs ↔ d ∈ fs₂.dirs)


/-! ## Filesystem lemmas -/

theorem lookupFile_eraseKey (l : List (FsPath × String)) (p q : FsPath)
    (h : q ≠ p) : lookupFile (eraseKey p l) q = lookupFile l q := by
  induction l with
  | nil => rfl
  | cons e rest ih =>
    by_cases he : e.1 = p
    · have hq : e.1 ≠ q := by rw [he]; exact fun hh => h hh.symm
      simp [eraseKey, lookupFile, he, hq, ih, Ne.symm h]
    · by_cases hq : e.1 = q
      · simp [eraseKey, lookupFile, he, hq, h]
      · simp [eraseKey, lookupFile, he, hq, ih]

theorem FS.read_write (fs : FS) (p : FsPath) (c : String) (q : FsPath) :
    (fs.write p c).read q = if q = p then some c else fs.read q := by
  unfold FS.write FS.read
  by_cases h : q = p
  · subst h; simp [lookupFile]
  · simp [lookupFile, h, Ne.symm h, lookupFile_eraseKey fs.files p q h]

theorem FS.read_mkdirParents (fs : FS) (d q : FsPath) :
    (fs.mkdirParents d).read q = fs.read q := rfl

theorem FS.dirs_write (fs : FS) (p : FsPath) (c : String) :
    (fs.write p c).dirs = fs.dirs := rfl

theorem FS.read_stage (ws : List (FsPath × String)) (fs : FS) (q : FsPath) :
    (stage ws fs).read q =
      match lastWrite ws q with
      | some c => some c
      | none => fs.read q := by
  induction ws generalizing fs with
  | nil => rfl
  | cons w rest ih =>
    show (stage rest (doWrite fs w)).read q = _
    rw [ih]
    cases hl : lastWrite rest q with
    | some c => simp [lastWrite, hl]
    | none =>
      simp only [lastWrite, hl]
      unfold doWrite
      rw [FS.read_write]
      by_cases h : q = w.1
      · simp [h]
      · simp [h, Ne.symm h, FS.read_mkdirParents]

theorem mem_insDir (a d : FsPath) (ds : List FsPath) :
    a ∈ insDir d ds ↔ a = d ∨ a ∈ ds := by
  unfold insDir
  split
  · rename_i hmem
    constructor
    · exact Or.inr
    · rintro (rfl | hh)
      · exact hmem
      · exact hh
  · exact List.mem_cons

theorem mem_insertDirs (ds new : List FsPath) (a : FsPath) :
    a ∈ insertDirs ds new ↔ a ∈ new ∨ a ∈ ds := by
  induction new generalizing ds with
  | nil => simp [insertDirs]
  | cons d rest ih =>
    have hstep : insertDirs ds (d :: rest) = insertDirs (insDir d ds) rest := rfl
    rw [hstep, ih, mem_insDir]
    simp [List.mem_cons]
    tauto

theorem mem_dirs_stage (ws : List (FsPath × String)) (fs : FS) (a : FsPath) :
    a ∈ (stage ws fs).dirs ↔
      (∃ w ∈ ws, a ∈ prefixesOf w.1.dropLast) ∨ a ∈ fs.dirs := by
  induction ws generalizing fs with
  | nil => simp [stage]
  | cons w rest ih =>
    show a ∈ (stage rest (doWrite fs w)).dirs ↔ _
    rw [ih]
    have hd : (doWrite fs w).dirs = insertDirs fs.dirs (prefixesOf w.1.dropLast) := rfl
    rw [hd, mem_insertDirs]
    constructor
    · rintro (⟨v, hv, hav⟩ | hpre | hfs)
      · exact Or.inl ⟨v, List.mem_cons_of_mem _ hv, hav⟩
      · exact Or.inl ⟨w, List.mem_cons_self _ _, hpre⟩
      · exact Or.inr hfs
    · rintro (⟨v, hv, hav⟩ | hfs)
      · rcases List.mem_cons.mp hv with rfl | hv'
        · exact Or.inr (Or.inl hav)
        · exact Or.inl ⟨v, hv', hav⟩
      · exact Or.inr (Or.inr hfs)

theorem lastWrite_eq_none (ws : List (FsPath × String)) (q : FsPath)
    (h : ∀ w ∈ ws, w.1 ≠ q) : lastWrite ws q = none := by
  induction ws with
  | nil => rfl
  | cons w rest ih =>
    rw [lastWrite, ih (fun x hx => h x (List.mem_cons_of_mem _ hx))]
    simp [h w (List.mem_cons_self _ _)]

theorem lastWrite_of_mem_nodup (ws : List (FsPath × String)) (p : FsPath)
    (c : String) (hmem : (p, c) ∈ ws) (hnd : (ws.map Prod.fst).Nodup) :
    lastWrite ws p = some c := by
  induction ws with
  | nil => cases hmem
  | cons w rest ih =>
    rw [List.map_cons, List.nodup_cons] at hnd
    rcases List.mem_cons.mp hmem with rfl | hmem'
    · have hnone : lastWrite rest p = none := by
        apply lastWrite_eq_none
        intro x hx hxq
        have hmap : x.1 ∈ rest.map Prod.fst := List.mem_map_of_mem Prod.fst hx
        rw [hxq] at hmap
        exact hnd.1 hmap
      rw [lastWrite, hnone]
      simp
    · rw [lastWrite, ih hmem' hnd.2]

theorem stage_append (A B : List (FsPath × String)) (fs : FS) :
    stage (A ++ B) fs = stage B (stage A fs) := by
  unfold stage
  exact List.foldl_append _ _ _ _

theorem FS.read_touchFile (fs : FS) (p q : FsPath) :
    (touchFile fs p).read q =
      if q = p then some ((fs.read p).getD "") else fs.read q := by
  unfold touchFile
  cases h : fs.read p with
  | some c =>
    by_cases hq : q = p <;> simp [hq, h]
  | none =>
    rw [FS.read_write]
    by_cases hq : q = p <;> simp [hq, h]

theorem FS.dirs_touchFile (fs : FS) (p : FsPath) :
    (touchFile fs p).dirs = fs.dirs := by
  unfold touchFile
  cases fs.read p <;> rfl

theorem stage_idem (ws : List (FsPath × String)) (fs : FS) :
    FS.equiv (stage ws (stage ws fs)) (stage ws fs) := by
  constructor
  · intro q
    rw [FS.read_stage, FS.read_stage]
    cases hl : lastWrite ws q <;> simp [hl]
  · intro d
    rw [mem_dirs_stage, mem_dirs_stage]
    constructor
    · rintro (hx | hx | hd)
      · exact Or.inl hx
      · exact Or.inl hx
      · exact Or.inr hd
    · rintro (hx | hd)
      · exact Or.inl hx
      · exact Or.inr (Or.inr hd)

/-! ## Path lemmas -/

theorem protoMarkerPath_eq (build_lib : FsPath) :
    protoMarkerPath build_lib =
      build_lib ++ ["mujoco_mpc", "proto", "__init__.py"] := by
  unfold protoMarkerPath protoDestPath
  rw [List.dropLast_append_of_ne_nil _ (by simp)]
  simp

theorem protoDest_ne_marker (build_lib : FsPath) :
    protoDestPath build_lib ≠ protoMarkerPath build_lib := by
  rw [protoMarkerPath_eq]
  unfold protoDestPath
  intro h
  have h2 := List.append_cancel_left h
  exact absurd h2 (by decide)

theorem protoDest_ne_source (build_lib : FsPath) :
    protoDestPath build_lib ≠ agentProtoSourcePath := by
  unfold protoDestPath agentProtoSourcePath
  intro h
  have hbl : build_lib = [] := by
    have hlen := congrArg List.length h
    simp only [List.length_append, List.length_cons, List.length_nil] at hlen
    exact List.length_eq_zero.mp (by omega)
  subst hbl
  exact absurd h (by decide)

theorem self_mem_prefixesOf (p : FsPath) (h : p ≠ []) : p ∈ prefixesOf p := by
  unfold prefixesOf
  have hpos : 0 < p.length := List.length_pos.mpr h
  refine List.mem_map.mpr ⟨p.length - 1, List.mem_range.mpr (by omega), ?_⟩
  rw [Nat.sub_add_cancel hpos]
  exact List.take_length p

/-! ## Pipeline characterization -/

theorem pipelineStage_eq (build_lib : FsPath) (protoContent : String)
    (sources : List (FsPath × String)) (binContent : String) (fs : FS) :
    pipelineStage build_lib protoContent sources binContent fs =
      stage
        ((sources.map fun rc => (tasksDestDir build_lib ++ rc.1, rc.2)) ++
          [(agentServiceDest build_lib, binContent)])
        (touchFile (stage [(protoDestPath build_lib, protoContent)] fs)
          (protoMarkerPath build_lib)) := by
  unfold pipelineStage CopyAgentServiceBinaryCommand.run
    CopyTaskAssetsCommand.run GenerateProtoGrpcCommand.stageFS
  rw [stage_append]

theorem read_pipelineStage (build_lib : FsPath) (protoContent : String)
    (sources : List (FsPath × String)) (binContent : String) (fs : FS)
    (q : FsPath) :
    (pipelineStage build_lib protoContent sources binContent fs).read q =
      match
        lastWrite
          ((sources.map fun rc => (tasksDestDir build_lib ++ rc.1, rc.2)) ++
            [(agentServiceDest build_lib, binContent)]) q with
      | some c => some c
      | none =>
        if q = protoMarkerPath build_lib then
          some
            (((stage [(protoDestPath build_lib, protoContent)] fs).read
              (protoMarkerPath build_lib)).getD "")
        else if protoDestPath build_lib = q then some protoContent
        else fs.read q := by
  rw [pipelineStage_eq, FS.read_stage]
  cases lastWrite
      ((sources.map fun rc => (tasksDestDir build_lib ++ rc.1, rc.2)) ++
        [(agentServiceDest build_lib, binContent)]) q with
  | some c => rfl
  | none =>
    simp only
    rw [FS.read_touchFile]
    by_cases hq : q = protoMarkerPath build_lib
    · simp [hq]
    · simp only [hq, if_false]
      rw [FS.read_stage]
      simp only [lastWrite]
      by_cases hpd : protoDestPath build_lib = q <;> simp [hpd]

theorem mem_dirs_pipelineStage (build_lib : FsPath) (protoContent : String)
    (sources : List (FsPath × String)) (binContent : String) (fs : FS)
    (d : FsPath) :
    d ∈ (pipelineStage build_lib protoContent sources binContent fs).dirs ↔
      (∃ w ∈ (sources.map fun rc => (tasksDestDir build_lib ++ rc.1, rc.2)) ++
          [(agentServiceDest build_lib, binContent)],
        d ∈ prefixesOf w.1.dropLast) ∨
      (∃ w ∈ [(protoDestPath build_lib, protoContent)],
        d ∈ prefixesOf w.1.dropLast) ∨
      d ∈ fs.dirs := by
  rw [pipelineStage_eq, mem_dirs_stage, FS.dirs_touchFile, mem_dirs_stage]

/-! ## Claims -/

/-- Claim C1, as stated, is false: with
`ARCHFLAGS = "-arch arm64 -arch x86_64"` on Darwin, both recognized tokens
are present and the spec's order-preserving reading demands the flag
`-DCMAKE_OSX_ARCHITECTURES=arm64;x86_64`, but the code passes
`x86_64;arm64` because it tests the tokens in a fixed order. -/
theorem claim_C1_counterexample :
    strContains "-arch arm64 -arch x86_64" "-arch x86_64" = true ∧
    strContains "-arch arm64 -arch x86_64" "-arch arm64" = true ∧
    specOrderPreservingArchs "-arch arm64 -arch x86_64" =
      ["arm64", "x86_64"] ∧
    cmake_configure_args ⟨"Darwin", some "-arch arm64 -arch x86_64"⟩ =
      baseConfigureArgs ++ ["-DCMAKE_OSX_ARCHITECTURES=x86_64;arm64"] ∧
    cmake_configure_args ⟨"Darwin", some "-arch arm64 -arch x86_64"⟩ ≠
      baseConfigureArgs ++
        ["-DCMAKE_OSX_ARCHITECTURES=" ++
          String.intercalate ";"
            (specOrderPreservingArchs "-arch arm64 -arch x86_64")] :=
  ⟨by decide, by decide, by decide, by decide, by decide⟩

/-- Claim C1 (amended): if the configuration step runs on Darwin with
`ARCHFLAGS` containing both recognized tokens, the configure call receives
both architectures combined into a single
`-DCMAKE_OSX_ARCHITECTURES=x86_64;arm64` flag - in that fixed order
(x86_64 first), regardless of the order in which the tokens appear in the
environment value. -/
theorem claim_C1_amended (af : String)
    (h64 : strContains af "-arch x86_64" = true)
    (harm : strContains af "-arch arm64" = true) :
    cmake_configure_args ⟨"Darwin", some af⟩ =
      baseConfigureArgs ++ ["-DCMAKE_OSX_ARCHITECTURES=x86_64;arm64"] := by
  have harchs : osx_archs af = ["x86_64", "arm64"] := by
    unfold osx_archs
    rw [h64, harm]
    rfl
  unfold cmake_configure_args
  rw [if_pos rfl]
  show baseConfigureArgs ++
      ["-DCMAKE_OSX_ARCHITECTURES=" ++ String.intercalate ";" (osx_archs af)] = _
  rw [harchs]
  rfl

/-- Witness for claim C1 (amended), at
`ARCHFLAGS = "-arch x86_64 -arch arm64"`. -/
theorem claim_C1_witness :
    strContains "-arch x86_64 -arch arm64" "-arch x86_64" = true ∧
    strContains "-arch x86_64 -arch arm64" "-arch arm64" = true ∧
    cmake_configure_args ⟨"Darwin", some "-arch x86_64 -arch arm64"⟩ =
      baseConfigureArgs ++ ["-DCMAKE_OSX_ARCHITECTURES=x86_64;arm64"] :=
  ⟨by decide, by decide,
   claim_C1_amended "-arch x86_64 -arch arm64" (by decide) (by decide)⟩

/-- Claim C2: when the expected artifact `../build/bin/agent_service` does
not exist, `CopyAgentServiceBinaryCommand.run` fails with the
missing-artifact error whose message names the required prior build step,
and the staging tree is returned unchanged: no directory is created and no
copy is performed. -/
theorem claim_C2 (build_lib : FsPath) (fs : FS) :
    CopyAgentServiceBinaryCommand.run none build_lib fs =
      (fs, some (.MissingArtifactError missingBinaryMsg)) ∧
    strContains missingBinaryMsg
      "Please build the `agent_service` C++ gRPC service" = true :=
  ⟨rfl, by decide⟩

/-- Claim C3: in every `BuildPyCommand.run` invocation, binding generation
finishes strictly before asset staging starts, which finishes strictly
before the delegated default packaging step starts; the trace is exactly
the three steps run to completion in sequence, so no step begins before
its predecessor has finished. -/
theorem claim_C3 :
    BuildPyCommand.runTrace.indexOf (Event.finished .generate_proto_grpc) <
      BuildPyCommand.runTrace.indexOf (Event.started .copy_task_assets) ∧
    BuildPyCommand.runTrace.indexOf (Event.finished .copy_task_assets) <
      BuildPyCommand.runTrace.indexOf (Event.started .default_build_py) ∧
    BuildPyCommand.runTrace =
      [.started .generate_proto_grpc, .finished .generate_proto_grpc,
       .started .copy_task_assets, .finished .copy_task_assets,
       .started .default_build_py, .finished .default_build_py] :=
  ⟨by decide, by decide, rfl⟩

/-- Claim C4: `GenerateProtoGrpcCommand.run` proceeds copy-then-generate:
it first copies the canonical IDL file to
`build_lib/mujoco_mpc/proto/agent.proto` (creating the parent directories),
then invokes the IDL compiler with the include-path flag and both
output-directory flags all set to the staging root and with the relocated
copy - a path distinct from the original - as input, and finally creates
the `__init__.py` package marker in the destination directory. -/
theorem claim_C4 (build_lib : FsPath) :
    GenerateProtoGrpcCommand.ops build_lib =
      [.mkdirParents (protoDestPath build_lib).dropLast,
       .copyFile agentProtoSourcePath (protoDestPath build_lib),
       .spawn ["python", "-m", "grpc_tools.protoc",
         "-I" ++ pathToString build_lib,
         "--python_out=" ++ pathToString build_lib,
         "--grpc_python_out=" ++ pathToString build_lib,
         pathToString (protoDestPath build_lib)],
       .spawn ["touch", pathToString (protoMarkerPath build_lib)]] ∧
    protoDestPath build_lib =
      build_lib ++ ["mujoco_mpc", "proto", "agent.proto"] ∧
    protoDestPath build_lib ≠ agentProtoSourcePath ∧
    protoMarkerPath build_lib =
      (protoDestPath build_lib).dropLast ++ ["__init__.py"] :=
  ⟨rfl, rfl, protoDest_ne_source build_lib, rfl⟩

/-- Claim C5: for every file found by the `*.xml` enumeration of the task
asset subtree (its path relative to the tasks root, with pairwise-distinct
relative paths as an enumeration yields), the staging step places its
content at `build_lib/mujoco_mpc/mjpc/tasks/<relative-path>`, and that
destination's parent directory exists in the staged tree (it is created
before the copy, as `doWrite` performs `mkdirParents` first). -/
theorem claim_C5 (build_lib : FsPath) (sources : List (FsPath × String))
    (fs : FS) (rel : FsPath) (content : String)
    (hmem : (rel, content) ∈ sources)
    (hnd : (sources.map Prod.fst).Nodup) :
    (CopyTaskAssetsCommand.run build_lib sources fs).read
        (tasksDestDir build_lib ++ rel) = some content ∧
    (tasksDestDir build_lib ++ rel).dropLast ∈
      (CopyTaskAssetsCommand.run build_lib sources fs).dirs := by
  have hw : (tasksDestDir build_lib ++ rel, content) ∈
      sources.map (fun rc => (tasksDestDir build_lib ++ rc.1, rc.2)) :=
    List.mem_map.mpr ⟨(rel, content), hmem, rfl⟩
  unfold CopyTaskAssetsCommand.run
  constructor
  · rw [FS.read_stage]
    have hndm :
        ((sources.map fun rc => (tasksDestDir build_lib ++ rc.1, rc.2)).map
          Prod.fst).Nodup := by
      rw [List.map_map]
      have hfun :
          (Prod.fst ∘ fun rc : FsPath × String =>
            (tasksDestDir build_lib ++ rc.1, rc.2)) =
            ((tasksDestDir build_lib ++ ·) ∘ Prod.fst) := rfl
      rw [hfun, ← List.map_map]
      exact hnd.map fun a b hab => List.append_cancel_left hab
    rw [lastWrite_of_mem_nodup _ _ _ hw hndm]
  · rw [mem_dirs_stage]
    left
    have hne : (tasksDestDir build_lib ++ rel).dropLast ≠ [] := by
      intro hcon
      have hlen := congrArg List.length hcon
      rw [List.length_dropLast] at hlen
      simp only [List.length_append, List.length_nil, tasksDestDir,
        List.length_cons] at hlen
      omega
    exact ⟨(tasksDestDir build_lib ++ rel, content), hw,
      self_mem_prefixesOf _ hne⟩

/-- Witness for claim C5: one concrete asset staged into an empty tree. -/
theorem claim_C5_witness :
    (CopyTaskAssetsCommand.run []
        [(["humanoid", "stand.xml"], "<mujoco/>")] ⟨[], []⟩).read
        (tasksDestDir [] ++ ["humanoid", "stand.xml"]) = some "<mujoco/>" ∧
    (tasksDestDir [] ++ ["humanoid", "stand.xml"]).dropLast ∈
      (CopyTaskAssetsCommand.run []
        [(["humanoid", "stand.xml"], "<mujoco/>")] ⟨[], []⟩).dirs :=
  claim_C5 [] [(["humanoid", "stand.xml"], "<mujoco/>")] ⟨[], []⟩
    ["humanoid", "stand.xml"] "<mujoco/>" (by decide) (by decide)

/-- Claim C6: a non-zero exit of the CMake configure call raises the
configuration error and nothing later runs; a non-zero exit of the CMake
build call (after a successful configure) raises the build-failure error
and nothing later runs; a non-zero exit of the protoc spawn raises the
generation error and the marker step does not run; each error propagates
unmodified through `BuildCMakeExtension.run` (never caught or retried);
and on a zero exit status the corresponding error is not raised. -/
theorem claim_C6 (cx : CMakeExits) (sx : SpawnExits)
    (binary : Option String) (build_lib : FsPath) (fs : FS) :
    (cx.configure ≠ 0 →
      BuildCMakeExtension.configure_and_build_agent_service cx =
        ([], some .ConfigurationError) ∧
      BuildCMakeExtension.run cx binary build_lib fs =
        ([], fs, some .ConfigurationError)) ∧
    (cx.configure = 0 → cx.build ≠ 0 →
      BuildCMakeExtension.configure_and_build_agent_service cx =
        ([.cmakeConfigure], some .BuildFailureError) ∧
      BuildCMakeExtension.run cx binary build_lib fs =
        ([.cmakeConfigure], fs, some .BuildFailureError)) ∧
    (cx.configure = 0 →
      (BuildCMakeExtension.configure_and_build_agent_service cx).2 ≠
        some .ConfigurationError) ∧
    (cx.build = 0 →
      (BuildCMakeExtension.configure_and_build_agent_service cx).2 ≠
        some .BuildFailureError) ∧
    (sx.protoc ≠ 0 →
      GenerateProtoGrpcCommand.spawns sx = ([], some .GenerationError)) ∧
    (sx.protoc = 0 →
      (GenerateProtoGrpcCommand.spawns sx).2 ≠ some .GenerationError) := by
  refine ⟨?_, ?_, ?_, ?_, ?_, ?_⟩
  · intro h
    constructor
    · unfold BuildCMakeExtension.configure_and_build_agent_service checkCall
      simp [h]
    · unfold BuildCMakeExtension.run
        BuildCMakeExtension.configure_and_build_agent_service checkCall
      simp [h]
  · intro hc hb
    constructor
    · unfold BuildCMakeExtension.configure_and_build_agent_service checkCall
      simp [hc, hb]
    · unfold BuildCMakeExtension.run
        BuildCMakeExtension.configure_and_build_agent_service checkCall
      simp [hc, hb]
  · intro hc
    unfold BuildCMakeExtension.configure_and_build_agent_service checkCall
    by_cases hb : cx.build = 0 <;> simp [hc, hb]
  · intro hb
    unfold BuildCMakeExtension.configure_and_build_agent_service checkCall
    by_cases hc : cx.configure = 0 <;> simp [hc, hb]
  · intro h
    unfold GenerateProtoGrpcCommand.spawns checkCall
    simp [h]
  · intro h
    unfold GenerateProtoGrpcCommand.spawns checkCall
    by_cases ht : sx.touch = 0 <;> simp [h, ht]

/-- Witness for claim C6 at concrete exit statuses. -/
theorem claim_C6_witness :
    BuildCMakeExtension.configure_and_build_agent_service ⟨1, 0⟩ =
      ([], some .ConfigurationError) ∧
    BuildCMakeExtension.configure_and_build_agent_service ⟨0, 2⟩ =
      ([.cmakeConfigure], some .BuildFailureError) ∧
    GenerateProtoGrpcCommand.spawns ⟨3, 0⟩ = ([], some .GenerationError) ∧
    (GenerateProtoGrpcCommand.spawns ⟨0, 0⟩).2 ≠ some .GenerationError :=
  ⟨((claim_C6 ⟨1, 0⟩ ⟨3, 0⟩ none [] ⟨[], []⟩).1 (by decide)).1,
   ((claim_C6 ⟨0, 2⟩ ⟨3, 0⟩ none [] ⟨[], []⟩).2.1 (by decide) (by decide)).1,
   (claim_C6 ⟨1, 0⟩ ⟨3, 0⟩ none [] ⟨[], []⟩).2.2.2.2.1 (by decide),
   (claim_C6 ⟨1, 0⟩ ⟨0, 0⟩ none [] ⟨[], []⟩).2.2.2.2.2 (by decide)⟩

/-- Claim C7: on any operating system other than Darwin, the ARCHFLAGS
environment value is never consulted - two configure runs differing only
in that variable's value or presence pass identical argument lists to the
external build system's configuration command. -/
theorem claim_C7 (system : String) (a₁ a₂ : Option String)
    (root buildDir : String) (h : system ≠ "Darwin") :
    cmakeConfigureCommand root buildDir ⟨system, a₁⟩ =
      cmakeConfigureCommand root buildDir ⟨system, a₂⟩ := by
  unfold cmakeConfigureCommand cmake_configure_args
  rw [if_neg h, if_neg h]

/-- Witness for claim C7: on Linux, setting versus unsetting ARCHFLAGS
leaves the configure command unchanged. -/
theorem claim_C7_witness :
    cmakeConfigureCommand "/src" "/build"
        ⟨"Linux", some "-arch arm64 -arch x86_64"⟩ =
      cmakeConfigureCommand "/src" "/build" ⟨"Linux", none⟩ :=
  claim_C7 "Linux" (some "-arch arm64 -arch x86_64") none "/src" "/build"
    (by decide)

theorem pipelineStage_read_idem (build_lib : FsPath) (protoContent : String)
    (sources : List (FsPath × String)) (binContent : String) (fs : FS)
    (q : FsPath) :
    (pipelineStage build_lib protoContent sources binContent
      (pipelineStage build_lib protoContent sources binContent fs)).read q =
    (pipelineStage build_lib protoContent sources binContent fs).read q := by
  rw [read_pipelineStage, read_pipelineStage]
  cases hl : lastWrite
      ((sources.map fun rc => (tasksDestDir build_lib ++ rc.1, rc.2)) ++
        [(agentServiceDest build_lib, binContent)]) q with
  | some c => rfl
  | none =>
    simp only
    by_cases hq : q = protoMarkerPath build_lib
    · subst hq
      rw [if_pos rfl, if_pos rfl]
      have h1 : (stage [(protoDestPath build_lib, protoContent)]
          (pipelineStage build_lib protoContent sources binContent fs)).read
            (protoMarkerPath build_lib) =
          (pipelineStage build_lib protoContent sources binContent fs).read
            (protoMarkerPath build_lib) := by
        rw [FS.read_stage]
        simp [lastWrite, protoDest_ne_marker build_lib]
      rw [h1, read_pipelineStage, hl]
      simp
    · rw [if_neg hq, if_neg hq]
      by_cases hpd : protoDestPath build_lib = q
      · rw [if_pos hpd, if_pos hpd]
      · rw [if_neg hpd, if_neg hpd]

theorem pipelineStage_dirs_idem (build_lib : FsPath) (protoContent : String)
    (sources : List (FsPath × String)) (binContent : String) (fs : FS)
    (d : FsPath) :
    d ∈ (pipelineStage build_lib protoContent sources binContent
      (pipelineStage build_lib protoContent sources binContent fs)).dirs ↔
    d ∈ (pipelineStage build_lib protoContent sources binContent fs).dirs := by
  rw [mem_dirs_pipelineStage, mem_dirs_pipelineStage]
  constructor
  · rintro (h | h | h | h | h)
    · exact Or.inl h
    · exact Or.inr (Or.inl h)
    · exact Or.inl h
    · exact Or.inr (Or.inl h)
    · exact Or.inr (Or.inr h)
  · rintro (h | h | h)
    · exact Or.inl h
    · exact Or.inr (Or.inl h)
    · exact Or.inr (Or.inr (Or.inr (Or.inr h)))

/-- Claim C8: staging is idempotent. For a fixed set of source files,
running the task-asset staging step twice yields the same staging tree
(same files, same contents, same directories) as running it once; likewise
for the binary-artifact staging step; and re-running the full staging
pipeline on an already-staged tree yields a tree identical to a single
invocation's. -/
theorem claim_C8 (build_lib : FsPath) (protoContent : String)
    (sources : List (FsPath × String)) (binContent : String) (fs : FS) :
    FS.equiv
      (CopyTaskAssetsCommand.run build_lib sources
        (CopyTaskAssetsCommand.run build_lib sources fs))
      (CopyTaskAssetsCommand.run build_lib sources fs) ∧
    FS.equiv
      ((CopyAgentServiceBinaryCommand.run (some binContent) build_lib
        ((CopyAgentServiceBinaryCommand.run (some binContent) build_lib
          fs).1)).1)
      ((CopyAgentServiceBinaryCommand.run (some binContent) build_lib fs).1) ∧
    FS.equiv
      (pipelineStage build_lib protoContent sources binContent
        (pipelineStage build_lib protoContent sources binContent fs))
      (pipelineStage build_lib protoContent sources binContent fs) :=
  ⟨stage_idem _ fs, stage_idem _ fs,
   fun q => pipelineStage_read_idem build_lib protoContent sources binContent
     fs q,
   fun d => pipelineStage_dirs_idem build_lib protoContent sources binContent
     fs d⟩

/-- Claim C9: when the recursive enumeration of the asset source subtree
finds zero `*.xml` files, `CopyTaskAssetsCommand.run` returns the
filesystem unchanged - it succeeds (the embedding has no error outcome, as
the loop body contains no raise), performs no copies, and creates no
directories; an absent or misconfigured asset directory yields the same
empty enumeration and hence the same result. -/
theorem claim_C9 (build_lib : FsPath) (fs : FS) :
    CopyTaskAssetsCommand.run build_lib [] fs = fs := rfl

/-- Claim C10: on Darwin, when ARCHFLAGS is set but contains neither
recognized token, the configure arguments still end with the architecture
flag carrying an empty value, rather than omitting the flag. -/
theorem claim_C10 (af : String)
    (h64 : strContains af "-arch x86_64" = false)
    (harm : strContains af "-arch arm64" = false) :
    cmake_configure_args ⟨"Darwin", some af⟩ =
      baseConfigureArgs ++ ["-DCMAKE_OSX_ARCHITECTURES="] := by
  have harchs : osx_archs af = [] := by
    unfold osx_archs
    rw [h64, harm]
    rfl
  unfold cmake_configure_args
  rw [if_pos rfl]
  show baseConfigureArgs ++
      ["-DCMAKE_OSX_ARCHITECTURES=" ++ String.intercalate ";" (osx_archs af)] = _
  rw [harchs]
  rfl

/-- Witness for claim C10 at `ARCHFLAGS = "-march=native"`. -/
theorem claim_C10_witness :
    strContains "-march=native" "-arch x86_64" = false ∧
    strContains "-march=native" "-arch arm64" = false ∧
    cmake_configure_args ⟨"Darwin", some "-march=native"⟩ =
      baseConfigureArgs ++ ["-DCMAKE_OSX_ARCHITECTURES="] :=
  ⟨by decide, by decide, claim_C10 "-march=native" (by decide) (by decide)⟩
